import Mathlib

/-!
Verification development for the firespread-api repository.

The Python sources are shallowly embedded:
* the Rothermel calculator (`app/core/rothermel.py`) is modelled over `ℝ`,
  with Python float `**`, `math.exp`, `math.cos`, `math.radians` mapped to
  `Real.rpow`, `Real.exp`, `Real.cos` and degree/radian conversion;
* the spread engine (`app/core/simulation_engine.py`) is modelled over `ℚ`
  with the grid dictionary as an association list; the RNG- and
  float-dependent body of `_calculate_spread_to_neighbor` (lines 150-202)
  is a parameter `sc : SpreadCalc` of the step function, since the claims
  settled here quantify over every possible outcome of that computation
  (or instantiate it with the no-ignition outcome, a possible draw
  sequence whenever every per-neighbour ignition threshold is below 1);
* the manager (`app/core/simulation_manager.py`) is modelled as pure
  functions on a `ManagerState`, with `HTTPException` mapped to `Except`
  over an error taxonomy, and the exception dispatch of the background
  tick loop modelled by `runSimulationLoopExit`.
-/

namespace FireSpread

/-- `FireCellState` from `app/models/simulation.py` (lines 19-23). -/
inductive FireCellState where
  | unburned
  | burning
  | burned
deriving DecidableEq, Repr

/-- `SimulationStatus` from `app/models/simulation.py` (lines 26-32). -/
inductive SimulationStatus where
  | created
  | running
  | paused
  | completed
  | error
deriving DecidableEq, Repr

/-- `VegetationType` from `app/models/simulation.py` (lines 10-16). -/
inductive VegetationType where
  | forest
  | grassland
  | shrubland
  | agricultural
  | urban
deriving DecidableEq, Repr

/-! ## Rothermel calculator (`app/core/rothermel.py`), over `ℝ` -/

/-- `FuelProperties` dataclass from `app/core/rothermel.py` (lines 17-43).
In Python `mineral_content` has default value 0.0555; the table below
always uses that default. -/
structure FuelProperties where
  fuel_load : ℝ
  surface_area_volume : ℝ
  fuel_depth : ℝ
  moisture_extinction : ℝ
  heat_content : ℝ
  fuel_density : ℝ
  bulk_density : ℝ
  mineral_content : ℝ

/-- `SimulationParameters` pydantic model from `app/models/simulation.py`
(lines 53-59). The numeric fields are reals; the pydantic bounds
(windSpeed in [0,100], windDirection in [0,360], humidity in [0,100],
slope in [0,45]) appear as hypotheses where a claim needs them. -/
structure SimulationParameters where
  vegetationType : VegetationType
  windSpeed : ℝ
  windDirection : ℝ
  humidity : ℝ
  slope : ℝ

/-- `RothermelModel.FUEL_PROPERTIES` table from `app/core/rothermel.py`
(lines 60-111). -/
noncomputable def FUEL_PROPERTIES : VegetationType → FuelProperties
  | .forest =>
      { fuel_load := 0.45, surface_area_volume := 3500, fuel_depth := 0.30,
        moisture_extinction := 25.0, heat_content := 18622, fuel_density := 512,
        bulk_density := 0.20, mineral_content := 0.0555 }
  | .grassland =>
      { fuel_load := 0.15, surface_area_volume := 11000, fuel_depth := 0.10,
        moisture_extinction := 15.0, heat_content := 18622, fuel_density := 200,
        bulk_density := 0.40, mineral_content := 0.0555 }
  | .shrubland =>
      { fuel_load := 0.35, surface_area_volume := 6000, fuel_depth := 0.20,
        moisture_extinction := 20.0, heat_content := 18622, fuel_density := 350,
        bulk_density := 0.30, mineral_content := 0.0555 }
  | .agricultural =>
      { fuel_load := 0.08, surface_area_volume := 8000, fuel_depth := 0.05,
        moisture_extinction := 12.0, heat_content := 18622, fuel_density := 150,
        bulk_density := 0.50, mineral_content := 0.0555 }
  | .urban =>
      { fuel_load := 0.02, surface_area_volume := 5000, fuel_depth := 0.02,
        moisture_extinction := 10.0, heat_content := 20000, fuel_density := 100,
        bulk_density := 0.10, mineral_content := 0.0555 }

/-- `RothermelModel.calculate_moisture_damping_coefficient`
(`app/core/rothermel.py` lines 113-135): the ratio `m / moisture_extinction`,
the cubic damping polynomial clamped to [0,1] when the ratio is below 1,
and 0 otherwise. -/
noncomputable def calculate_moisture_damping_coefficient
    (moisture_content : ℝ) (fp : FuelProperties) : ℝ :=
  if moisture_content / fp.moisture_extinction < 1 then
    max 0 (min 1 (1 - 2.59 * (moisture_content / fp.moisture_extinction)
      + 5.11 * (moisture_content / fp.moisture_extinction) ^ 2
      - 3.52 * (moisture_content / fp.moisture_extinction) ^ 3))
  else 0

/-- `RothermelModel.calculate_mineral_damping_coefficient`
(`app/core/rothermel.py` lines 137-150). -/
noncomputable def calculate_mineral_damping_coefficient (fp : FuelProperties) : ℝ :=
  min 1 (0.174 * fp.mineral_content ^ (-(0.19) : ℝ))

/-- `RothermelModel.calculate_reaction_intensity`
(`app/core/rothermel.py` lines 152-184). -/
noncomputable def calculate_reaction_intensity
    (fp : FuelProperties) (eta_M eta_s : ℝ) : ℝ :=
  let beta := fp.bulk_density / fp.fuel_density
  let beta_op := 3.348 * fp.surface_area_volume ^ (-(0.8189) : ℝ)
  let gamma_max := fp.surface_area_volume ^ (1.5 : ℝ)
    / (495.0 + 0.0594 * fp.surface_area_volume ^ (1.5 : ℝ))
  let gamma :=
    if 0 < beta ∧ 0 < beta_op then
      let A := 133.0 * fp.surface_area_volume ^ (-(0.7913) : ℝ)
      gamma_max * (beta / beta_op) ^ A * Real.exp (A * (1.0 - beta / beta_op))
    else 0
  max 0 (gamma * fp.heat_content * eta_M * eta_s)

/-- `RothermelModel.calculate_propagating_flux_ratio`
(`app/core/rothermel.py` lines 186-207). -/
noncomputable def calculate_propagating_flux (fp : FuelProperties) : ℝ :=
  let beta := fp.bulk_density / fp.fuel_density
  Real.exp ((0.792 + 0.681 * Real.sqrt fp.surface_area_volume) * (beta + 0.1))
    / (192.0 + 0.2595 * fp.surface_area_volume)

/-- `RothermelModel.calculate_heat_of_preignition`
(`app/core/rothermel.py` lines 209-223). -/
noncomputable def calculate_heat_of_preignition (moisture_content : ℝ) : ℝ :=
  250.0 + 1116.0 * (moisture_content / 100.0)

/-- `RothermelModel.calculate_base_spread_rate`
(`app/core/rothermel.py` lines 225-266). `moisture_content = none`
models the Python default `None`, replaced by `humidity * 0.5`. -/
noncomputable def calculate_base_spread_rate
    (p : SimulationParameters) (moisture_content : Option ℝ) : ℝ :=
  let fp := FUEL_PROPERTIES p.vegetationType
  let m0 := moisture_content.getD (p.humidity * 0.5)
  let m := max 1.0 (min m0 (fp.moisture_extinction - 1.0))
  let eta_M := calculate_moisture_damping_coefficient m fp
  let eta_s := calculate_mineral_damping_coefficient fp
  let I_R := calculate_reaction_intensity fp eta_M eta_s
  if I_R ≤ 0 then 0
  else
    let xi := calculate_propagating_flux fp
    let Q_ig := calculate_heat_of_preignition m
    max 0 (I_R * xi / (fp.bulk_density * Q_ig))

/-- `RothermelModel.calculate_wind_coefficient`
(`app/core/rothermel.py` lines 268-298). -/
noncomputable def calculate_wind_coefficient (p : SimulationParameters) : ℝ :=
  let fp := FUEL_PROPERTIES p.vegetationType
  if p.windSpeed ≤ 0 then 1
  else
    let wind_ft_per_min := p.windSpeed * 3.28084 * 60
    let beta := fp.bulk_density / fp.fuel_density
    let B := 0.02526 * fp.surface_area_volume ^ (0.54 : ℝ)
    let C := 7.47 * Real.exp (-(0.133) * fp.surface_area_volume ^ (0.55 : ℝ))
    let E := 0.715 * Real.exp (-(0.000359) * fp.surface_area_volume)
    max 1 (C * wind_ft_per_min ^ B * (beta / 0.0189) ^ (-E))

/-- `RothermelModel.calculate_slope_coefficient`
(`app/core/rothermel.py` lines 300-320); `math.radians` is
multiplication by `π / 180`. -/
noncomputable def calculate_slope_coefficient (p : SimulationParameters) : ℝ :=
  if p.slope ≤ 0 then 1
  else
    let slope_radians := p.slope * Real.pi / 180
    max 1 (5.275 * slope_radians ^ 2)

/-- `RothermelModel.calculate_spread_rate`
(`app/core/rothermel.py` lines 322-354); the `try/except` can only fire on
float faults, absent in the real-number model. -/
noncomputable def calculate_spread_rate
    (p : SimulationParameters) (moisture_content : Option ℝ) : ℝ :=
  let R_0 := calculate_base_spread_rate p moisture_content
  if R_0 ≤ 0 then 0
  else
    let phi_w := calculate_wind_coefficient p
    let phi_s := calculate_slope_coefficient p
    max 0 (R_0 * (1.0 + phi_w + phi_s))

/-- The folded wind-angle difference of
`RothermelModel.calculate_directional_spread_rate`
(`app/core/rothermel.py` lines 383-385): `abs(direction - windDirection)`,
folded to at most 180 degrees. -/
noncomputable def windAngleDiff (p : SimulationParameters) (direction_degrees : ℝ) : ℝ :=
  let d0 := |direction_degrees - p.windDirection|
  if 180 < d0 then 360 - d0 else d0

/-- The direction-dependent wind factor of
`RothermelModel.calculate_directional_spread_rate`
(`app/core/rothermel.py` lines 387-389):
`1 + (phi_w_max - 1) * max(0, cos(radians(wind_angle_diff)))`. -/
noncomputable def phiWDirectional (p : SimulationParameters) (direction_degrees : ℝ) : ℝ :=
  1.0 + (calculate_wind_coefficient p - 1.0)
    * max 0 (Real.cos (windAngleDiff p direction_degrees * Real.pi / 180))

/-- `RothermelModel.calculate_directional_spread_rate`
(`app/core/rothermel.py` lines 356-394). -/
noncomputable def calculate_directional_spread_rate
    (p : SimulationParameters) (direction_degrees : ℝ) (moisture_content : Option ℝ) : ℝ :=
  let R_0 := calculate_base_spread_rate p moisture_content
  if R_0 ≤ 0 then 0
  else
    let phi_s := calculate_slope_coefficient p
    max 0 (R_0 * (1.0 + phiWDirectional p direction_degrees + phi_s))

/-! ### Rothermel lemmas and claims -/

lemma calculate_wind_coefficient_ge_one (p : SimulationParameters) :
    1 ≤ calculate_wind_coefficient p := by
  unfold calculate_wind_coefficient
  by_cases h : p.windSpeed ≤ 0
  · simp [h]
  · simp only [h, if_false]
    exact le_max_left _ _

lemma calculate_slope_coefficient_ge_one (p : SimulationParameters) :
    1 ≤ calculate_slope_coefficient p := by
  unfold calculate_slope_coefficient
  by_cases h : p.slope ≤ 0
  · simp [h]
  · simp only [h, if_false]
    exact le_max_left _ _

/-- Claim C8: for every parameter set, `windCoefficient ≥ 1` and
`slopeCoefficient ≥ 1`; moreover the wind coefficient is exactly 1 when
`windSpeed = 0` and the slope coefficient is exactly 1 when `slope = 0`. -/
theorem C8_coefficients_floor (p : SimulationParameters) :
    1 ≤ calculate_wind_coefficient p ∧ 1 ≤ calculate_slope_coefficient p ∧
    (p.windSpeed = 0 → calculate_wind_coefficient p = 1) ∧
    (p.slope = 0 → calculate_slope_coefficient p = 1) := by
  refine ⟨calculate_wind_coefficient_ge_one p, calculate_slope_coefficient_ge_one p, ?_, ?_⟩
  · intro h
    unfold calculate_wind_coefficient
    simp [h]
  · intro h
    unfold calculate_slope_coefficient
    simp [h]

/-- Concrete instantiation of `C8_coefficients_floor` discharging the
driver-is-zero implications (grassland, windSpeed 0, slope 0). -/
theorem C8_coefficients_floor_witness :
    1 ≤ calculate_wind_coefficient ⟨.grassland, 0, 90, 50, 0⟩ ∧
    calculate_wind_coefficient ⟨.grassland, 0, 90, 50, 0⟩ = 1 ∧
    calculate_slope_coefficient ⟨.grassland, 0, 90, 50, 0⟩ = 1 :=
  ⟨(C8_coefficients_floor ⟨.grassland, 0, 90, 50, 0⟩).1,
   (C8_coefficients_floor ⟨.grassland, 0, 90, 50, 0⟩).2.2.1 rfl,
   (C8_coefficients_floor ⟨.grassland, 0, 90, 50, 0⟩).2.2.2 rfl⟩

/-- Claim C7: for every moisture content `m` and fuel properties with
positive moisture of extinction, the moisture damping coefficient is 0
when `m` is at or above the moisture of extinction, and otherwise equals
the cubic `1 - 2.59 r + 5.11 r^2 - 3.52 r^3` in `r = m / extinction`,
clamped to `[0, 1]`. -/
theorem C7_moisture_damping (m : ℝ) (fp : FuelProperties)
    (hE : 0 < fp.moisture_extinction) :
    (fp.moisture_extinction ≤ m → calculate_moisture_damping_coefficient m fp = 0) ∧
    (m < fp.moisture_extinction →
      calculate_moisture_damping_coefficient m fp =
        max 0 (min 1 (1 - 2.59 * (m / fp.moisture_extinction)
          + 5.11 * (m / fp.moisture_extinction) ^ 2
          - 3.52 * (m / fp.moisture_extinction) ^ 3))) := by
  constructor
  · intro h
    unfold calculate_moisture_damping_coefficient
    rw [if_neg]
    exact not_lt.mpr ((one_le_div hE).mpr h)
  · intro h
    unfold calculate_moisture_damping_coefficient
    rw [if_pos ((div_lt_one hE).mpr h)]

/-- Concrete instantiation of `C7_moisture_damping` at `m = 30` on the
forest fuel model (moisture of extinction 25): damping is 0. -/
theorem C7_moisture_damping_witness :
    0 < (FUEL_PROPERTIES .forest).moisture_extinction ∧
    (FUEL_PROPERTIES .forest).moisture_extinction ≤ 30 ∧
    calculate_moisture_damping_coefficient 30 (FUEL_PROPERTIES .forest) = 0 :=
  ⟨by simp [FUEL_PROPERTIES]; norm_num,
   by simp [FUEL_PROPERTIES]; norm_num,
   (C7_moisture_damping 30 (FUEL_PROPERTIES .forest)
      (by simp [FUEL_PROPERTIES]; norm_num)).1
      (by simp [FUEL_PROPERTIES]; norm_num)⟩

lemma phiWDirectional_downwind (p : SimulationParameters) :
    phiWDirectional p p.windDirection = calculate_wind_coefficient p := by
  unfold phiWDirectional windAngleDiff
  have h0 : |p.windDirection - p.windDirection| = 0 := by simp
  rw [h0]
  have h1 : ¬ (180 : ℝ) < 0 := by norm_num
  rw [if_neg h1]
  have h2 : (0 : ℝ) * Real.pi / 180 = 0 := by ring
  rw [h2, Real.cos_zero]
  norm_num

lemma phiWDirectional_upwind (p : SimulationParameters) :
    phiWDirectional p (p.windDirection + 180) = 1 := by
  unfold phiWDirectional windAngleDiff
  have h0 : |p.windDirection + 180 - p.windDirection| = (180 : ℝ) := by
    rw [show p.windDirection + 180 - p.windDirection = (180 : ℝ) by ring]
    norm_num
  rw [h0]
  have h1 : ¬ (180 : ℝ) < 180 := lt_irrefl _
  rw [if_neg h1]
  have h2 : (180 : ℝ) * Real.pi / 180 = Real.pi := by ring
  rw [h2, Real.cos_pi]
  norm_num

/-- Claim C6: with positive wind speed and any moisture input, the
directional spread rate evaluated straight downwind (in the wind
direction) is at least the directional spread rate evaluated straight
upwind (180 degrees away), all other inputs equal. -/
theorem C6_downwind_ge_upwind (p : SimulationParameters) (moisture_content : Option ℝ)
    (hw : 0 < p.windSpeed) :
    calculate_directional_spread_rate p (p.windDirection + 180) moisture_content ≤
    calculate_directional_spread_rate p p.windDirection moisture_content := by
  unfold calculate_directional_spread_rate
  by_cases hR : calculate_base_spread_rate p moisture_content ≤ 0
  · simp [hR]
  · rw [if_neg hR, if_neg hR]
    push_neg at hR
    rw [phiWDirectional_downwind, phiWDirectional_upwind]
    refine max_le_max le_rfl ?_
    refine mul_le_mul_of_nonneg_left ?_ hR.le
    have := calculate_wind_coefficient_ge_one p
    linarith

/-- Concrete instantiation of `C6_downwind_ge_upwind`: grassland,
windSpeed 20 m/s blowing towards 90 degrees. -/
theorem C6_downwind_ge_upwind_witness :
    (0 : ℝ) < SimulationParameters.windSpeed ⟨.grassland, 20, 90, 45, 10⟩ ∧
    calculate_directional_spread_rate ⟨.grassland, 20, 90, 45, 10⟩ (90 + 180) none ≤
    calculate_directional_spread_rate ⟨.grassland, 20, 90, 45, 10⟩ 90 none :=
  ⟨by norm_num, C6_downwind_ge_upwind ⟨.grassland, 20, 90, 45, 10⟩ none (by norm_num)⟩

/-! ## Spread engine (`app/core/simulation_engine.py`), over `ℚ`

The grid dictionary `fire_grid : Dict[Tuple[int,int], GridCell]` is an
association list with Python-dict semantics (`dlookup` finds the first
binding, `dictInsert` overwrites in place or appends); the sets
`active_fire_cells` and `fire_perimeter` are duplicate-free lists in
insertion order (`setAdd`). -/

/-- Grid coordinates: `Tuple[int, int]`. -/
abbrev GridPos := ℤ × ℤ

/-- `GridCell` dataclass from `app/core/simulation_engine.py` (lines 29-39). -/
structure GridCell where
  x : ℚ
  y : ℚ
  state : FireCellState
  ignition_time : ℤ
  intensity : ℚ
  temperature : ℚ
  fuel_moisture : ℚ
  burned_duration : ℤ
deriving DecidableEq, Repr

/-- Python dict lookup on an association list (first binding wins). -/
def dlookup {κ α : Type} [DecidableEq κ] (k : κ) : List (κ × α) → Option α
  | [] => none
  | e :: l => if e.1 = k then some e.2 else dlookup k l

/-- Python dict assignment: overwrite the first binding in place, or
append a new binding (dict insertion order). -/
def dictInsert {κ α : Type} [DecidableEq κ] (k : κ) (v : α) :
    List (κ × α) → List (κ × α)
  | [] => [(k, v)]
  | e :: l => if e.1 = k then (k, v) :: l else e :: dictInsert k v l

/-- Python `set.add` on a duplicate-free list. -/
def setAdd (k : GridPos) (l : List GridPos) : List GridPos :=
  if k ∈ l then l else l ++ [k]

/-- Python 3 `round` (banker's rounding, half to even), as used by
`int(round(x / resolution))` in `_coordinate_to_grid` (lines 93-97). -/
def pyRound (q : ℚ) : ℤ :=
  let f := q.floor
  let r := q - f
  if r < 1/2 then f
  else if 1/2 < r then f + 1
  else if f % 2 = 0 then f else f + 1

/-- Engine state: the fields of `FireSimulationEngine` (lines 64-86) that
the pure model tracks. `humidity` is the only simulation parameter read
directly by the structural code (`parameters.humidity * 0.5` for new
cells); the remaining parameters are consumed inside the abstracted
spread computation. The wall-clock field `last_update` and the logger
are omitted. -/
structure EngineState where
  simulation_id : String
  current_time : ℤ
  status : SimulationStatus
  humidity : ℚ
  grid_resolution : ℚ
  max_simulation_time : ℤ
  max_fire_cells : ℕ
  fire_grid : List (GridPos × GridCell)
  active_fire_cells : List GridPos
  fire_perimeter : List GridPos
  total_cells_burned : ℤ
  peak_intensity : ℚ
  spread_statistics : List (ℤ × ℕ × ℕ × ℚ)
deriving DecidableEq, Repr

/-- `_get_neighboring_cells` (lines 127-135): the 8 neighbours in the
Python loop order (`dx` outer, `dy` inner, skipping `(0,0)`). -/
def _get_neighboring_cells (grid_x grid_y : ℤ) : List GridPos :=
  [(grid_x - 1, grid_y - 1), (grid_x - 1, grid_y), (grid_x - 1, grid_y + 1),
   (grid_x, grid_y - 1), (grid_x, grid_y + 1),
   (grid_x + 1, grid_y - 1), (grid_x + 1, grid_y), (grid_x + 1, grid_y + 1)]

/-- Outcome of `_calculate_spread_to_neighbor` (lines 137-202) for one
(source cell, target position) pair: `none` when the uniform sample does
not fall below the ignition probability, `some (intensity, temperature)`
when the target ignites. The body combines the Rothermel directional
spread rate (real-valued) with a fresh `np.random.random()` draw, so it
is the engine's nondeterministic input; the claims below hold for every
such outcome function, and concrete evaluations use `spreadCalcNone`,
the outcome in which no draw falls below its ignition threshold. Such a
draw sequence is possible exactly when every threshold is below 1; the
threshold scales with `1 / grid_resolution ^ 2`, so it exceeds 1 at the
default resolution 0.01 (ignition certain) but is far below 1 at coarse
resolutions (see `engineCoarse`). -/
def SpreadCalc : Type := GridCell → GridPos → Option (ℚ × ℚ)

/-- The no-ignition outcome function. -/
def spreadCalcNone : SpreadCalc := fun _ _ => none

/-- The body of the `_update_existing_fire_cells` loop (lines 208-228)
for one position of `active_fire_cells`: decay a burning cell's
intensity by `decay_rate = 1.0`, recompute its temperature, and mark it
Burned when it has burned more than 60 ticks or its intensity fell
below 5.0 (updating `total_cells_burned` and `peak_intensity`).
The computed `cells_to_remove` set is dead code in the source: it is
never applied to `active_fire_cells`, so no position is ever removed.
A position absent from the grid would raise `KeyError` in Python; the
reachable states keep `active_fire_cells` within the grid keys. -/
def decayOne (st : EngineState) (grid_pos : GridPos) : EngineState :=
  match dlookup grid_pos st.fire_grid with
  | none => st
  | some cell =>
    if cell.state = .burning then
      let intensity := max 0 (cell.intensity - 1)
      let temperature := 100 + intensity * 5
      let burn_duration := st.current_time - cell.ignition_time
      if 60 < burn_duration ∨ intensity < 5 then
        let cell' : GridCell :=
          { cell with state := .burned, intensity := intensity,
                      temperature := temperature, burned_duration := burn_duration }
        { st with fire_grid := dictInsert grid_pos cell' st.fire_grid,
                  total_cells_burned := st.total_cells_burned + 1,
                  peak_intensity := max st.peak_intensity intensity }
      else
        let cell' : GridCell :=
          { cell with intensity := intensity, temperature := temperature }
        { st with fire_grid := dictInsert grid_pos cell' st.fire_grid }
    else st

/-- `_update_existing_fire_cells` (lines 204-228). -/
def _update_existing_fire_cells (s : EngineState) : EngineState :=
  s.active_fire_cells.foldl decayOne s

/-- The target positions at which `_spread_fire` (lines 230-278) invokes
`_calculate_spread_to_neighbor`: for each perimeter position still in
the grid, its 8 neighbours that are absent from the grid (present
neighbours are skipped by the `continue` on line 245-246). -/
def spreadTargets (s : EngineState) : List GridPos :=
  s.fire_perimeter.flatMap (fun grid_pos =>
    match dlookup grid_pos s.fire_grid with
    | none => []
    | some _ =>
      (_get_neighboring_cells grid_pos.1 grid_pos.2).filter
        (fun q => (dlookup q s.fire_grid).isNone))

/-- One ignition attempt inside `_spread_fire`: on ignition the new
cell's intensity is boosted by 1.5 capped at 200, its temperature by 1.2
capped at 800 (lines 253-256), and the cell is created Burning at the
current tick with world coordinates `grid * resolution` and fuel
moisture `humidity * 0.5` (lines 258-268). -/
def igniteAt (sc : SpreadCalc) (s : EngineState) (source_cell : GridCell)
    (neighbor_pos : GridPos) : Option (GridPos × GridCell) :=
  match sc source_cell neighbor_pos with
  | none => none
  | some it =>
    some (neighbor_pos,
      { x := neighbor_pos.1 * s.grid_resolution,
        y := neighbor_pos.2 * s.grid_resolution,
        state := .burning,
        ignition_time := s.current_time,
        intensity := min 200 (it.1 * (3/2)),
        temperature := min 800 (it.2 * (6/5)),
        fuel_moisture := s.humidity * (1/2),
        burned_duration := 0 })

/-- The `new_fire_cells` list built by `_spread_fire` (lines 232-270). -/
def _new_fire_cells (sc : SpreadCalc) (s : EngineState) : List (GridPos × GridCell) :=
  s.fire_perimeter.flatMap (fun grid_pos =>
    match dlookup grid_pos s.fire_grid with
    | none => []
    | some source_cell =>
      ((_get_neighboring_cells grid_pos.1 grid_pos.2).filter
        (fun q => (dlookup q s.fire_grid).isNone)).filterMap
        (igniteAt sc s source_cell))

/-- `_update_fire_perimeter` (lines 280-292): the perimeter becomes the
positions of `active_fire_cells` with at least one neighbour absent
from the grid. -/
def _update_fire_perimeter (s : EngineState) : EngineState :=
  { s with fire_perimeter := s.active_fire_cells.filter (fun grid_pos =>
      (_get_neighboring_cells grid_pos.1 grid_pos.2).any
        (fun q => (dlookup q s.fire_grid).isNone)) }

/-- `_spread_fire` (lines 230-278): insert the new cells into the grid,
the active set and the perimeter (lines 272-276), then refresh the
perimeter. -/
def _spread_fire (sc : SpreadCalc) (s : EngineState) : EngineState :=
  let news := _new_fire_cells sc s
  _update_fire_perimeter
    { s with
      fire_grid := news.foldl (fun g e => dictInsert e.1 e.2 g) s.fire_grid,
      active_fire_cells := news.foldl (fun a e => setAdd e.1 a) s.active_fire_cells,
      fire_perimeter := news.foldl (fun a e => setAdd e.1 a) s.fire_perimeter }

/-- `_calculate_spread_statistics` (lines 294-304). -/
def _calculate_spread_statistics (s : EngineState) : EngineState :=
  if 0 < s.current_time then
    { s with spread_statistics := s.spread_statistics ++
        [(s.current_time, s.fire_grid.length, s.active_fire_cells.length,
          (s.fire_grid.length : ℚ) / (s.current_time : ℚ))] }
  else s

/-- `FireCell` pydantic model from `app/models/simulation.py` (lines 73-80). -/
structure FireCell where
  x : ℚ
  y : ℚ
  intensity : ℚ
  temperature : ℚ
  burnTime : ℤ
  state : FireCellState
deriving DecidableEq, Repr

/-- `SimulationMetadata` from `app/models/simulation.py` (lines 123-130);
the `spreadRate` description string `f"{rate:.2f} cells/second"` is kept
as the unformatted rate. -/
structure SimulationMetadata where
  totalCells : ℕ
  activeFires : ℕ
  burnedArea : ℕ
  estimatedDuration : ℤ
  spreadRateValue : ℚ
  elapsedTime : ℤ
deriving DecidableEq, Repr

/-- `SimulationResponse` from `app/models/simulation.py` (lines 145-151). -/
structure SimulationResponse where
  simulationId : String
  status : SimulationStatus
  currentTime : ℤ
  fireCells : List FireCell
  metadata : SimulationMetadata
deriving DecidableEq, Repr

/-- `_get_current_state` (lines 346-385). -/
def _get_current_state (s : EngineState) : SimulationResponse :=
  let fire_cells := s.fire_grid.map (fun e =>
    ({ x := e.2.x, y := e.2.y, intensity := e.2.intensity,
       temperature := e.2.temperature,
       burnTime := if (0 : ℤ) ≤ e.2.ignition_time then s.current_time - e.2.ignition_time else 0,
       state := e.2.state } : FireCell))
  { simulationId := s.simulation_id,
    status := s.status,
    currentTime := s.current_time,
    fireCells := fire_cells.take 1000,
    metadata :=
      { totalCells := s.fire_grid.length,
        activeFires := s.active_fire_cells.length,
        burnedArea := (s.fire_grid.filter (fun e => e.2.state = .burned)).length,
        estimatedDuration := s.max_simulation_time,
        spreadRateValue :=
          if 0 < s.current_time ∧ 0 < s.fire_grid.length then
            (s.fire_grid.length : ℚ) / (s.current_time : ℚ)
          else 0,
        elapsedTime := s.current_time } }

/-- The `self.current_time += 1` of `step` (line 327). -/
def tickIncrement (s : EngineState) : EngineState :=
  { s with current_time := s.current_time + 1 }

/-- The termination checks of `step` (lines 329-338), in their
`if/elif` order: Completed when `active_fire_cells` is empty, when the
tick counter reached `max_simulation_time`, or when the grid reached
`max_fire_cells`; otherwise the status is left alone. -/
def checkCompletion (s : EngineState) : EngineState :=
  if s.active_fire_cells.length = 0 then { s with status := .completed }
  else if s.max_simulation_time ≤ s.current_time then { s with status := .completed }
  else if s.max_fire_cells ≤ s.fire_grid.length then { s with status := .completed }
  else s

/-- `step` (lines 306-344): a no-op returning the current state when not
Running; otherwise decay, spread, statistics, tick increment, then the
completion checks. The `try/except` around the tick body can only fire
on runtime faults, absent from the pure model. -/
def step (sc : SpreadCalc) (s : EngineState) : SimulationResponse × EngineState :=
  if s.status ≠ .running then (_get_current_state s, s)
  else
    let s' := checkCompletion (tickIncrement
      (_calculate_spread_statistics (_spread_fire sc (_update_existing_fire_cells s))))
    (_get_current_state s', s')

/-- The state component of `step`. -/
def stepState (sc : SpreadCalc) (s : EngineState) : EngineState :=
  (step sc s).2

/-- `IgnitionPoint` from `app/models/simulation.py` (lines 35-40). -/
structure IgnitionPoint where
  id : String
  lat : ℚ
  lng : ℚ
  timestamp : ℤ
deriving DecidableEq, Repr

/-- `FireSimulationEngine.__init__` plus `_initialize_ignition_points`
(lines 54-125): start at tick 0 in Created status and place a Burning
cell of intensity 100 and temperature 800 at the quantized grid position
of each ignition point (`lng` is x, `lat` is y). -/
def initEngine (sid : String) (humidity : ℚ) (res : ℚ) (maxT : ℤ) (maxC : ℕ)
    (pts : List IgnitionPoint) : EngineState :=
  pts.foldl (fun st pt =>
    let grid_pos : GridPos := (pyRound (pt.lng / res), pyRound (pt.lat / res))
    let cell : GridCell :=
      { x := pt.lng, y := pt.lat, state := .burning, ignition_time := 0,
        intensity := 100, temperature := 800,
        fuel_moisture := humidity * (1/2), burned_duration := 0 }
    { st with fire_grid := dictInsert grid_pos cell st.fire_grid,
              active_fire_cells := setAdd grid_pos st.active_fire_cells,
              fire_perimeter := setAdd grid_pos st.fire_perimeter })
    { simulation_id := sid, current_time := 0, status := .created,
      humidity := humidity, grid_resolution := res,
      max_simulation_time := maxT, max_fire_cells := maxC,
      fire_grid := [], active_fire_cells := [], fire_perimeter := [],
      total_cells_burned := 0, peak_intensity := 0, spread_statistics := [] }

/-! ### Engine lemmas -/

section EngineProofs

/- Batteries marks the `Rat` field operations irreducible; concrete
evaluation of the `ℚ`-valued engine model needs them reducible. -/
attribute [local semireducible] Rat.add Rat.sub Rat.mul Rat.inv

lemma dlookup_dictInsert_ne {κ α : Type} [DecidableEq κ] (k p : κ) (v : α)
    (l : List (κ × α)) (h : p ≠ k) :
    dlookup p (dictInsert k v l) = dlookup p l := by
  induction l with
  | nil =>
    simp only [dictInsert, dlookup]
    rw [if_neg (fun hk => h hk.symm)]
  | cons e l ih =>
    by_cases he : e.1 = k
    · simp only [dictInsert, if_pos he, dlookup]
      rw [if_neg (fun hk => h hk.symm), if_neg (fun h1 => (h (he ▸ h1).symm))]
    · simp only [dictInsert, if_neg he, dlookup]
      by_cases hp : e.1 = p
      · rw [if_pos hp, if_pos hp]
      · rw [if_neg hp, if_neg hp, ih]

lemma dlookup_foldl_dictInsert {κ α : Type} [DecidableEq κ] (news : List (κ × α))
    (g : List (κ × α)) (p : κ) (h : ∀ e ∈ news, e.1 ≠ p) :
    dlookup p (news.foldl (fun acc e => dictInsert e.1 e.2 acc) g) = dlookup p g := by
  induction news generalizing g with
  | nil => rfl
  | cons e l ih =>
    simp only [List.foldl_cons]
    rw [ih _ (fun x hx => h x (List.mem_cons_of_mem _ hx)),
        dlookup_dictInsert_ne _ _ _ _ (h e (List.mem_cons_self _ _)).symm]

lemma decayOne_preserves_burned (st : EngineState) (pos p : GridPos) (c : GridCell)
    (h : dlookup p st.fire_grid = some c) (hb : c.state = .burned) :
    dlookup p (decayOne st pos).fire_grid = some c := by
  unfold decayOne
  split
  · exact h
  · rename_i cell hcell
    by_cases hpp : pos = p
    · subst hpp
      rw [h] at hcell
      rw [show cell = c from (Option.some.inj hcell).symm]
      rw [if_neg (by rw [hb]; exact fun hx => FireCellState.noConfusion hx)]
      exact h
    · by_cases hburn : cell.state = .burning
      · rw [if_pos hburn]
        dsimp only
        split_ifs with hcond <;>
          · dsimp only
            rw [dlookup_dictInsert_ne _ _ _ _ (Ne.symm hpp)]
            exact h
      · rw [if_neg hburn]
        exact h

lemma foldl_decayOne_preserves (l : List GridPos) (st : EngineState) (p : GridPos)
    (c : GridCell) (h : dlookup p st.fire_grid = some c) (hb : c.state = .burned) :
    dlookup p (l.foldl decayOne st).fire_grid = some c := by
  induction l generalizing st with
  | nil => exact h
  | cons a l ih => exact ih _ (decayOne_preserves_burned st a p c h hb)

lemma update_cells_preserves_burned (s : EngineState) (p : GridPos) (c : GridCell)
    (h : dlookup p s.fire_grid = some c) (hb : c.state = .burned) :
    dlookup p (_update_existing_fire_cells s).fire_grid = some c :=
  foldl_decayOne_preserves s.active_fire_cells s p c h hb

lemma spreadTargets_absent (s : EngineState) (q : GridPos)
    (hq : q ∈ spreadTargets s) : dlookup q s.fire_grid = none := by
  unfold spreadTargets at hq
  rcases List.mem_flatMap.mp hq with ⟨pos, _, hmem⟩
  cases hpos : dlookup pos s.fire_grid with
  | none => rw [hpos] at hmem; simp at hmem
  | some src =>
    rw [hpos] at hmem
    have := (List.mem_filter.mp hmem).2
    simpa [Option.isNone_iff_eq_none] using this

lemma not_mem_spreadTargets (s : EngineState) (p : GridPos) (c : GridCell)
    (h : dlookup p s.fire_grid = some c) : p ∉ spreadTargets s := by
  intro hm
  rw [spreadTargets_absent s p hm] at h
  exact Option.noConfusion h

lemma new_fire_cells_pos_absent (sc : SpreadCalc) (s : EngineState)
    (e : GridPos × GridCell) (he : e ∈ _new_fire_cells sc s) :
    dlookup e.1 s.fire_grid = none := by
  unfold _new_fire_cells at he
  rcases List.mem_flatMap.mp he with ⟨pos, _, hmem⟩
  cases hpos : dlookup pos s.fire_grid with
  | none => rw [hpos] at hmem; simp at hmem
  | some src =>
    rw [hpos] at hmem
    rcases List.mem_filterMap.mp hmem with ⟨q, hqmem, hq⟩
    have hqabs : (dlookup q s.fire_grid).isNone := (List.mem_filter.mp hqmem).2
    unfold igniteAt at hq
    cases hsc : sc src q with
    | none => rw [hsc] at hq; exact Option.noConfusion hq
    | some it =>
      rw [hsc] at hq
      have : e.1 = q := by
        have := Option.some.inj hq
        rw [← this]
      rw [this]
      simpa [Option.isNone_iff_eq_none] using hqabs

lemma spread_preserves_lookup (sc : SpreadCalc) (s : EngineState) (p : GridPos)
    (c : GridCell) (h : dlookup p s.fire_grid = some c) :
    dlookup p (_spread_fire sc s).fire_grid = some c := by
  unfold _spread_fire _update_fire_perimeter
  simp only
  rw [dlookup_foldl_dictInsert]
  · exact h
  · intro e he hep
    have := new_fire_cells_pos_absent sc s e he
    rw [hep, h] at this
    exact Option.noConfusion this

lemma stats_fire_grid (s : EngineState) :
    (_calculate_spread_statistics s).fire_grid = s.fire_grid := by
  unfold _calculate_spread_statistics
  split_ifs <;> rfl

lemma checkCompletion_fire_grid (s : EngineState) :
    (checkCompletion s).fire_grid = s.fire_grid := by
  unfold checkCompletion
  split_ifs <;> rfl

lemma stepState_preserves_burned (sc : SpreadCalc) (s : EngineState) (p : GridPos)
    (c : GridCell) (h : dlookup p s.fire_grid = some c) (hb : c.state = .burned) :
    dlookup p (stepState sc s).fire_grid = some c := by
  unfold stepState step
  by_cases hr : s.status ≠ .running
  · rw [if_pos hr]
    exact h
  · rw [if_neg hr]
    simp only [checkCompletion_fire_grid, stats_fire_grid, tickIncrement]
    exact spread_preserves_lookup sc _ p c (update_cells_preserves_burned s p c h hb)

/-- Claim C5: a Burned grid cell is terminal. For every number of
subsequent ticks the cell is still present in the grid unchanged (so its
state is still Burned and it was never removed), and the spread pass of
the next tick never evaluates its coordinate as an ignition target (so
it is never re-ignited): the targets are exactly the absent neighbours
of perimeter cells, and the coordinate is present. -/
theorem C5_burned_terminal (sc : SpreadCalc) (s : EngineState) (p : GridPos)
    (c : GridCell) (h : dlookup p s.fire_grid = some c) (hb : c.state = .burned) :
    ∀ n : ℕ, dlookup p ((stepState sc)^[n] s).fire_grid = some c ∧
      p ∉ spreadTargets (_update_existing_fire_cells ((stepState sc)^[n] s)) := by
  intro n
  induction n with
  | zero =>
    exact ⟨h, not_mem_spreadTargets _ _ c (update_cells_preserves_burned s p c h hb)⟩
  | succ n ih =>
    rw [Function.iterate_succ_apply']
    have h' := stepState_preserves_burned sc _ p c ih.1 hb
    exact ⟨h', not_mem_spreadTargets _ _ c (update_cells_preserves_burned _ p c h' hb)⟩

/-- Claim C9: `step` on a non-Running simulation returns the current
snapshot and leaves the state (grid, active set, perimeter, tick
counter, counters, status) untouched. -/
theorem C9_step_noop (sc : SpreadCalc) (s : EngineState) (h : s.status ≠ .running) :
    step sc s = (_get_current_state s, s) := by
  unfold step
  rw [if_pos h]

/-! ### Concrete engine runs -/

/-- The engine created with one ignition point at world coordinates
(0,0), default settings (resolution 0.01, `MAX_SIMULATION_TIME = 300`,
`MAX_FIRE_CELLS_PER_SIMULATION = 1000`), humidity 100, after `start()`. -/
def engineStarted : EngineState :=
  { initEngine "sim" 100 (1/100) 300 1000
      [{ id := "ig", lat := 0, lng := 0, timestamp := 0 }] with
    status := .running }

/-- The same engine under the coarse configuration `GRID_RESOLUTION =
1000` (an unvalidated environment setting, `config.py` line 54; the
spec lists grid resolution among the configuration the core respects).
At humidity 100 the moisture clamp of `calculate_base_spread_rate`
(rothermel.py line 245) keeps fuel moisture at `moisture_extinction - 1`,
so the damping coefficient stays positive (about 0.11 to 0.24 across
the fuel table) and, with windSpeed 0 and slope 0, the directional rate
is `3 * R_0`, at most a couple hundred m/min. The per-neighbour
ignition threshold is
`0.8 * ((R / 60) / res) / (dist * res) * (intensity / 100)`:
at the default resolution 0.01 it exceeds 1, so ignition is certain
and every default-settings run completes through the max-cells check
around tick 16, before any cell can burn out; at resolution 1000 it is
below `0.8 * (200/60/1000) / 1000 * 2 < 10 ^ (-5)`, so draw sequences
in which no neighbour ever ignites are possible — and overwhelmingly
likely — and `spreadCalcNone` is an actual outcome of this run. -/
def engineCoarse : EngineState :=
  { initEngine "sim" 100 1000 300 1000
      [{ id := "ig", lat := 0, lng := 0, timestamp := 0 }] with
    status := .running }

set_option maxRecDepth 400000 in
/-- Claim C1 (code bug evaluation): at the coarse-resolution
configuration of `engineCoarse`, under the possible (typical) draw
sequence with no ignitions, the sole cell transitions to Burned at tick
61; after the 62nd step the grid holds no Burning cell, the tick
counter is below the configured maximum and the grid size is below the
configured maximum — yet the status is still Running, not Completed.
The completion check tests `active_fire_cells`, and the decay pass
builds `cells_to_remove` without ever applying it, so Burned cells stay
in the active set forever and the "no Burning cells remain" completion
condition of the spec cannot fire by burn-out. (At the default
resolution ignition is certain and runs complete through the max-cells
check before any burn-out, which is why the slip is invisible there.) -/
theorem C1_completion_check_eval :
    ((stepState spreadCalcNone)^[62] engineCoarse).status = .running ∧
    (∀ pc ∈ ((stepState spreadCalcNone)^[62] engineCoarse).fire_grid,
      pc.2.state ≠ .burning) ∧
    ((stepState spreadCalcNone)^[62] engineCoarse).current_time <
      ((stepState spreadCalcNone)^[62] engineCoarse).max_simulation_time ∧
    ((stepState spreadCalcNone)^[62] engineCoarse).fire_grid.length <
      ((stepState spreadCalcNone)^[62] engineCoarse).max_fire_cells := by
  decide

set_option maxRecDepth 400000 in
/-- Claim C2 (code bug evaluation): in the same coarse-resolution
62-tick run, the refreshed perimeter contains coordinate (0,0) whose
grid cell is Burned, not Burning — the perimeter is computed from
`active_fire_cells`, which still contains the Burned cell because the
decay pass never applies `cells_to_remove`. The claim's "perimeter
equals exactly the currently-Burning cells with an absent neighbour"
therefore fails on the code at this reachable state. -/
theorem C2_perimeter_eval :
    (0, 0) ∈ ((stepState spreadCalcNone)^[62] engineCoarse).fire_perimeter ∧
    (dlookup (0, 0) ((stepState spreadCalcNone)^[62] engineCoarse).fire_grid).map
      GridCell.state = some .burned := by
  decide

/-- A Burned cell as the decay pass freezes it after 61 ticks of
burning without spread (intensity 38, temperature 290). -/
def cellBurned : GridCell :=
  { x := 0, y := 0, state := .burned, ignition_time := 0, intensity := 38,
    temperature := 290, fuel_moisture := 50, burned_duration := 61 }

/-- A Running engine state at tick 62 holding only that Burned cell,
still listed in the active set and the perimeter. -/
def engineWithBurned : EngineState :=
  { simulation_id := "sim", current_time := 62, status := .running,
    humidity := 100, grid_resolution := 1/100, max_simulation_time := 300,
    max_fire_cells := 1000, fire_grid := [((0, 0), cellBurned)],
    active_fire_cells := [(0, 0)], fire_perimeter := [(0, 0)],
    total_cells_burned := 1, peak_intensity := 38, spread_statistics := [] }

set_option maxRecDepth 400000 in
/-- Concrete instantiation of `C5_burned_terminal`: the Burned cell at
(0,0) survives 3 further ticks unchanged and is never a spread target. -/
theorem C5_burned_terminal_witness :
    dlookup (0, 0) engineWithBurned.fire_grid = some cellBurned ∧
    cellBurned.state = .burned ∧
    (dlookup (0, 0) ((stepState spreadCalcNone)^[3] engineWithBurned).fire_grid
        = some cellBurned ∧
      (0, 0) ∉ spreadTargets
        (_update_existing_fire_cells ((stepState spreadCalcNone)^[3] engineWithBurned))) :=
  ⟨by decide, by decide,
   C5_burned_terminal spreadCalcNone engineWithBurned (0, 0) cellBurned
     (by decide) (by decide) 3⟩

/-- A paused engine, for the `step`-no-op witness. -/
def enginePaused : EngineState :=
  { engineStarted with status := .paused }

/-- Concrete instantiation of `C9_step_noop` on a Paused engine. -/
theorem C9_step_noop_witness :
    enginePaused.status ≠ .running ∧
    step spreadCalcNone enginePaused = (_get_current_state enginePaused, enginePaused) :=
  ⟨by decide, C9_step_noop spreadCalcNone enginePaused (by decide)⟩

/-! ## Simulation manager (`app/core/simulation_manager.py`)

`HTTPException` raised by the manager operations is modelled as
`Except.error` over the error taxonomy; the status codes used by the
source are recorded on the constructors. -/

/-- The manager's error taxonomy. -/
inductive ApiError where
  /-- HTTP 429: total cap or concurrency cap reached (lines 93-106). -/
  | capacityExceeded
  /-- HTTP 400: no ignition points (lines 109-113). -/
  | invalidInput
  /-- HTTP 409: duplicate simulation id (lines 118-122). -/
  | conflict
  /-- HTTP 404: unknown simulation id. -/
  | notFound
  /-- HTTP 400: disallowed start/pause transition (lines 160-164). -/
  | invalidTransition
deriving DecidableEq, Repr

/-- `SimulationRequest` from `app/models/simulation.py` (lines 95-99),
restricted to the fields the manager model reads. -/
structure SimulationRequest where
  humidity : ℚ
  ignitionPoints : List IgnitionPoint
  simulationId : Option String
deriving DecidableEq, Repr

/-- `SimulationManager` state (lines 32-47): the `simulations`,
`websocket_connections` and `simulation_tasks` tables plus the
settings the operations read (`MAX_SIMULATIONS`,
`MAX_CONCURRENT_SIMULATIONS`, and the engine-construction settings). -/
structure ManagerState where
  simulations : List (String × EngineState)
  websocket_connections : List String
  simulation_tasks : List String
  max_simulations : ℕ
  max_concurrent : ℕ
  grid_resolution : ℚ
  max_simulation_time : ℤ
  max_fire_cells : ℕ
deriving DecidableEq, Repr

/-- The running count computed by `create_simulation` (lines 100-101). -/
def runningCount (m : ManagerState) : ℕ :=
  (m.simulations.filter (fun e => e.2.status = .running)).length

/-- `create_simulation` (lines 79-140), with its checks in source
order: total cap, concurrency cap, empty ignition list, duplicate id.
`freshId` stands for the `uuid.uuid4()` draw used when the request
carries no id. -/
def create_simulation (m : ManagerState) (req : SimulationRequest)
    (freshId : String) : Except ApiError (ManagerState × String) :=
  if m.max_simulations ≤ m.simulations.length then .error .capacityExceeded
  else if m.max_concurrent ≤ runningCount m then .error .capacityExceeded
  else if req.ignitionPoints = [] then .error .invalidInput
  else
    let simulation_id := req.simulationId.getD freshId
    if (dlookup simulation_id m.simulations).isSome then .error .conflict
    else
      let engine := initEngine simulation_id req.humidity m.grid_resolution
        m.max_simulation_time m.max_fire_cells req.ignitionPoints
      .ok ({ m with
              simulations := m.simulations ++ [(simulation_id, engine)],
              websocket_connections := m.websocket_connections ++ [simulation_id] },
           simulation_id)

/-- `start_simulation` (lines 142-175): not-found check, transition
check (only Created and Paused may start), then `simulation.start()`
(status := Running) and registration of a background task when none is
registered. There is no concurrency-cap check here. -/
def start_simulation (m : ManagerState) (simulation_id : String) :
    Except ApiError (ManagerState × SimulationResponse) :=
  match dlookup simulation_id m.simulations with
  | none => .error .notFound
  | some simulation =>
    if simulation.status ≠ .created ∧ simulation.status ≠ .paused then
      .error .invalidTransition
    else
      let simulation' := { simulation with status := .running }
      let tasks :=
        if simulation_id ∈ m.simulation_tasks then m.simulation_tasks
        else m.simulation_tasks ++ [simulation_id]
      .ok ({ m with
              simulations := dictInsert simulation_id simulation' m.simulations,
              simulation_tasks := tasks },
           _get_current_state simulation')

/-- `stop_simulation` (lines 282-304): not-found check, then
`simulation.stop()` (status := Completed, unconditionally — engine
`stop`, lines 397-400) and `task.cancel()`. The cancel is only a
cancellation request; the task entry is removed later by the loop's
`finally`, so `simulation_tasks` is unchanged here. -/
def stop_simulation (m : ManagerState) (simulation_id : String) :
    Except ApiError (ManagerState × SimulationResponse) :=
  match dlookup simulation_id m.simulations with
  | none => .error .notFound
  | some simulation =>
    let simulation' := { simulation with status := .completed }
    .ok ({ m with
            simulations := dictInsert simulation_id simulation' m.simulations },
         _get_current_state simulation')

/-- The status of a successful manager result. -/
def okStatus {ε : Type} (r : Except ε (ManagerState × SimulationResponse)) :
    Option SimulationStatus :=
  match r with
  | .ok x => some x.2.status
  | .error _ => none

lemma dlookup_dictInsert_self {κ α : Type} [DecidableEq κ] (k : κ) (v : α)
    (l : List (κ × α)) : dlookup k (dictInsert k v l) = some v := by
  induction l with
  | nil => simp [dictInsert, dlookup]
  | cons e l ih => by_cases he : e.1 = k <;> simp [dictInsert, dlookup, he, ih]

/-- Claim C10: for an existing id, `stop_simulation` always succeeds and
forces the simulation's status to Completed regardless of its prior
status (Created, Paused, Error included), and only a missing id is
rejected, with NotFound. -/
theorem C10_stop_forces_completed (m : ManagerState) (sid : String) :
    (dlookup sid m.simulations = none → stop_simulation m sid = .error .notFound) ∧
    (∀ sim, dlookup sid m.simulations = some sim →
      stop_simulation m sid =
        .ok ({ m with simulations :=
                dictInsert sid ({ sim with status := .completed }) m.simulations },
             _get_current_state ({ sim with status := .completed })) ∧
      dlookup sid (dictInsert sid ({ sim with status := .completed }) m.simulations) =
        some ({ sim with status := .completed }) ∧
      (_get_current_state ({ sim with status := .completed })).status = .completed) := by
  constructor
  · intro h
    unfold stop_simulation
    simp only [h]
  · intro sim h
    unfold stop_simulation
    simp only [h]
    refine ⟨?_, dlookup_dictInsert_self _ _ _, ?_⟩ <;> trivial

/-- Claim C4 as amended: `create_simulation` rejects with
CapacityExceeded both when the total count is at the total cap and when
the Running count is at the concurrency cap; `start_simulation` does
not check the concurrency cap at all — on an existing Created or Paused
simulation it succeeds and yields Running whatever the Running count. -/
theorem C4_amended_capacity (m : ManagerState) (req : SimulationRequest)
    (fid sid : String) (sim : EngineState) :
    ((m.max_simulations ≤ m.simulations.length ∨ m.max_concurrent ≤ runningCount m) →
      create_simulation m req fid = .error .capacityExceeded) ∧
    (dlookup sid m.simulations = some sim →
      (sim.status = .created ∨ sim.status = .paused) →
      okStatus (start_simulation m sid) = some .running) := by
  constructor
  · intro hcap
    unfold create_simulation
    by_cases h1 : m.max_simulations ≤ m.simulations.length
    · rw [if_pos h1]
    · rw [if_neg h1]
      rcases hcap with h | h
      · exact absurd h h1
      · rw [if_pos h]
  · intro hfound hstat
    unfold start_simulation
    simp only [hfound]
    have hcond : ¬(sim.status ≠ .created ∧ sim.status ≠ .paused) := by
      rcases hstat with h | h <;> simp [h]
    rw [if_neg hcond]
    rfl

/-! ### Concrete manager states -/

/-- An already-running simulation engine under id "a". -/
def engineRunningA : EngineState :=
  { initEngine "a" 50 (1/100) 300 1000
      [{ id := "p", lat := 0, lng := 0, timestamp := 0 }] with
    status := .running }

/-- A freshly created (not yet started) engine under id "b". -/
def engineCreatedB : EngineState :=
  initEngine "b" 50 (1/100) 300 1000
    [{ id := "p", lat := 1, lng := 1, timestamp := 0 }]

/-- A manager whose Running count (1) is exactly at the concurrency cap
(`MAX_CONCURRENT_SIMULATIONS = 1`), holding a second Created simulation. -/
def managerAtConcurrencyCap : ManagerState :=
  { simulations := [("a", engineRunningA), ("b", engineCreatedB)],
    websocket_connections := ["a", "b"], simulation_tasks := ["a"],
    max_simulations := 100, max_concurrent := 1, grid_resolution := 1/100,
    max_simulation_time := 300, max_fire_cells := 1000 }

/-- Claim C4 counterexample: with the Running count at the concurrency
cap, `start_simulation` on the Created simulation "b" does not reject —
it succeeds and returns a Running snapshot, because the source checks
the concurrency cap only in `create_simulation`, never in
`start_simulation`. -/
theorem C4_counterexample :
    managerAtConcurrencyCap.max_concurrent ≤ runningCount managerAtConcurrencyCap ∧
    okStatus (start_simulation managerAtConcurrencyCap "b") = some .running := by
  decide

/-- The same manager with the total cap lowered to its current size. -/
def managerAtTotalCap : ManagerState :=
  { managerAtConcurrencyCap with max_simulations := 2 }

/-- A creation request with one ignition point and no caller id. -/
def requestW : SimulationRequest :=
  { humidity := 50,
    ignitionPoints := [{ id := "p", lat := 2, lng := 2, timestamp := 0 }],
    simulationId := none }

/-- Concrete instantiation of `C4_amended_capacity`: creation is
rejected at the total cap, and starting the Created simulation "b"
succeeds although the Running count is at the concurrency cap. -/
theorem C4_amended_capacity_witness :
    managerAtTotalCap.max_simulations ≤ managerAtTotalCap.simulations.length ∧
    create_simulation managerAtTotalCap requestW "f" = .error .capacityExceeded ∧
    dlookup "b" managerAtConcurrencyCap.simulations = some engineCreatedB ∧
    engineCreatedB.status = .created ∧
    okStatus (start_simulation managerAtConcurrencyCap "b") = some .running :=
  ⟨by decide,
   (C4_amended_capacity managerAtTotalCap requestW "f" "b" engineCreatedB).1
     (Or.inl (by decide)),
   by decide, by decide,
   (C4_amended_capacity managerAtConcurrencyCap requestW "f" "b" engineCreatedB).2
     (by decide) (Or.inl (by decide))⟩

/-- An engine in the terminal Error status, under id "x". -/
def engineErroredX : EngineState :=
  { initEngine "x" 50 (1/100) 300 1000
      [{ id := "p", lat := 0, lng := 0, timestamp := 0 }] with
    status := .error }

/-- A manager holding only the errored simulation "x". -/
def managerWithErrored : ManagerState :=
  { simulations := [("x", engineErroredX)],
    websocket_connections := ["x"], simulation_tasks := [],
    max_simulations := 100, max_concurrent := 10, grid_resolution := 1/100,
    max_simulation_time := 300, max_fire_cells := 1000 }

/-- The errored engine after `simulation.stop()`. -/
def engineStoppedX : EngineState :=
  { engineErroredX with status := .completed }

/-- The manager after `stop_simulation managerWithErrored "x"`. -/
def managerStoppedX : ManagerState :=
  { managerWithErrored with
    simulations := dictInsert "x" engineStoppedX managerWithErrored.simulations }

/-- Concrete instantiation of `C10_stop_forces_completed`: stopping the
simulation that is in Error status succeeds and forces Completed. -/
theorem C10_stop_forces_completed_witness :
    dlookup "x" managerWithErrored.simulations = some engineErroredX ∧
    (stop_simulation managerWithErrored "x" =
        .ok (managerStoppedX, _get_current_state engineStoppedX) ∧
      dlookup "x" managerStoppedX.simulations = some engineStoppedX ∧
      (_get_current_state engineStoppedX).status = .completed) :=
  ⟨by decide,
   (C10_stop_forces_completed managerWithErrored "x").2 engineErroredX (by decide)⟩

/-! ### The background tick loop's exit handling
(`SimulationManager._run_simulation_loop`, lines 177-230) -/

/-- How the body of `_run_simulation_loop` ends: `normalExit` when the
`while` condition became false (simulation no longer Running, or
shutdown), `cancelled` when `asyncio.CancelledError` reached the loop
(raised at one of its awaits), `failed` when any other exception
escaped the body. -/
inductive LoopExit where
  | normalExit
  | cancelled
  | failed
deriving DecidableEq, Repr

/-- What the loop does after its body ends. -/
structure LoopExitResult where
  /-- The simulation's status after the handlers ran. -/
  finalStatus : SimulationStatus
  /-- How many final snapshots the handlers broadcast to the
  simulation's subscribers after the loop body ended. -/
  finalBroadcasts : ℕ
  /-- Whether the `finally` block removed the task registration. -/
  deregistered : Bool
deriving DecidableEq, Repr

/-- The exception dispatch of `_run_simulation_loop` (lines 210-230),
as a function of how the body ended and of the simulation's status at
that moment. Normal exit broadcasts the final state once (lines
211-212); the `except asyncio.CancelledError` handler (lines 216-218)
only calls `simulation.stop()` — it broadcasts nothing; the generic
`except` handler (lines 219-226) forces Error and attempts one
broadcast; the `finally` block (lines 227-230) always deregisters the
task. -/
def runSimulationLoopExit (upshot : LoopExit) (statusAtExit : SimulationStatus) :
    LoopExitResult :=
  match upshot with
  | .normalExit =>
    { finalStatus := statusAtExit, finalBroadcasts := 1, deregistered := true }
  | .cancelled =>
    { finalStatus := .completed, finalBroadcasts := 0, deregistered := true }
  | .failed =>
    { finalStatus := .error, finalBroadcasts := 1, deregistered := true }

/-- Claim C3 counterexample: on cancellation of a running loop the
handler does force Completed and the task is deregistered, but no final
snapshot is broadcast (the claim requires at least one), so the claim
as a whole is false. -/
theorem C3_counterexample :
    ¬ ((runSimulationLoopExit .cancelled .running).finalStatus = .completed ∧
       1 ≤ (runSimulationLoopExit .cancelled .running).finalBroadcasts ∧
       (runSimulationLoopExit .cancelled .running).deregistered = true) := by
  decide

/-- Claim C3 as amended: on cancellation the loop forces the
simulation's status to Completed and deregisters itself, but broadcasts
no further snapshot — subscribers receive no terminal snapshot from the
cancellation path. -/
theorem C3_amended_cancellation (statusAtExit : SimulationStatus) :
    (runSimulationLoopExit .cancelled statusAtExit).finalStatus = .completed ∧
    (runSimulationLoopExit .cancelled statusAtExit).finalBroadcasts = 0 ∧
    (runSimulationLoopExit .cancelled statusAtExit).deregistered = true :=
  ⟨rfl, rfl, rfl⟩

end EngineProofs

end FireSpread
